import Mathlib

/-!
Verification of the ePDG infrastructure wrappers (Go): a MySQL connection
manager (src/database/mysql.go), a SQLite connection manager with a
serializing mutex (src/unnamed/part_000, package database), and a zap-based
logging facade (src/logger/zap.go).

The Go code is shallowly embedded: methods with pointer receivers become
state-passing functions, the underlying database/sql driver becomes an
abstract oracle (a record of outcomes for open/ping/exec/query/begin/close
calls), and Go errors become an explicit inductive type mirroring
errors.New and fmt.Errorf("...: %w", err) wrapping.
-/

namespace EPDG

/-- Errors, mirroring Go error values relevant to the wrappers:
`dbClosed` is database/sql's ErrDBClosed ("sql: database is closed"),
`errorsNew s` is errors.New(s), `driverErr n` is an abstract opaque
driver-reported error, and `wrap msg e` is fmt.Errorf(msg ++ ": %w", e). -/
inductive Err
  | dbClosed
  | errorsNew (s : String)
  | driverErr (n : Nat)
  | wrap (msg : String) (inner : Err)
  deriving DecidableEq, Repr

/-- errors.New("database not connected"), returned by the SQLite wrapper
(src/unnamed/part_000 lines 71, 89, 125). -/
def notConnectedErr : Err := Err.errorsNew "database not connected"

/-- Outcome oracle for the underlying database/sql driver: which error, if
any, each primitive driver interaction reports. `none` means success. -/
structure Driver where
  openErr : Option Err
  pingErr : Option Err
  closeErr : Option Err
  execErr : String → Option Err
  queryErr : String → Option Err
  beginErr : Option Err
  rowsAffectedRes : Except Err Int

/-- Go context.Context: only its identity matters to the embedding (the
wrappers never inspect it; they pass it to the driver). -/
inductive Context
  | background
  | other (n : Nat)
  deriving DecidableEq, Repr

/-- Go sql.TxOptions (opaque to the wrappers). -/
structure TxOptions where
  isolation : Int := 0
  readOnly : Bool := false
  deriving DecidableEq, Repr

/-- Go time.Hour expressed in nanoseconds (time.Duration units). -/
def timeHourNs : Int := 3600000000000

/-- Model of a Go *sql.DB handle: the pool parameters set on it, whether
Close has been called, and how it was opened. -/
structure SqlDB where
  driverName : String
  dsn : String
  maxOpenConns : Int
  maxIdleConns : Int
  connMaxLifetimeNs : Int
  closed : Bool
  deriving DecidableEq, Repr

/-- Model of sql.Open: validates nothing about reachability (lazy), fails
only if the oracle says the open itself errors; otherwise yields a fresh
handle with zero-valued pool parameters. -/
def sqlOpen (drv : Driver) (name dsn : String) : Except Err SqlDB :=
  match drv.openErr with
  | some e => .error e
  | none => .ok { driverName := name, dsn := dsn, maxOpenConns := 0,
                  maxIdleConns := 0, connMaxLifetimeNs := 0, closed := false }

/-- sql.DB.SetMaxOpenConns. -/
def SqlDB.setMaxOpenConns (d : SqlDB) (n : Int) : SqlDB := { d with maxOpenConns := n }

/-- sql.DB.SetMaxIdleConns. -/
def SqlDB.setMaxIdleConns (d : SqlDB) (n : Int) : SqlDB := { d with maxIdleConns := n }

/-- sql.DB.SetConnMaxLifetime. -/
def SqlDB.setConnMaxLifetime (d : SqlDB) (ns : Int) : SqlDB := { d with connMaxLifetimeNs := ns }

/-- sql.DB.Ping / PingContext: on a closed handle database/sql reports
ErrDBClosed; otherwise the driver oracle decides. -/
def SqlDB.pingDB (d : SqlDB) (drv : Driver) : Option Err :=
  if d.closed then some .dbClosed else drv.pingErr

/-- Model of a Go sql.Result for a statement (its RowsAffected outcome is
fixed by the driver oracle at execution time). -/
structure SqlResult where
  query : String
  rowsAffectedRes : Except Err Int

/-- sql.Result.RowsAffected. -/
def SqlResult.rowsAffected (r : SqlResult) : Except Err Int := r.rowsAffectedRes

/-- Model of Go *sql.Rows (a forward cursor; opaque here). -/
structure Rows where
  query : String
  deriving DecidableEq, Repr

/-- Model of Go *sql.Row: database/sql always returns a non-nil Row whose
internal err field carries any failure (surfaced at Scan). -/
structure Row where
  err : Option Err
  query : String
  deriving DecidableEq, Repr

/-- Model of Go *sql.Tx (opaque). -/
structure Tx where
  deriving DecidableEq, Repr

/-- sql.DB.Exec / ExecContext: ErrDBClosed on a closed handle, else the
oracle's exec outcome; on success the result's RowsAffected outcome is the
oracle's. -/
def SqlDB.execDB (d : SqlDB) (drv : Driver) (q : String) : Except Err SqlResult :=
  if d.closed then .error .dbClosed
  else
    match drv.execErr q with
    | some e => .error e
    | none => .ok { query := q, rowsAffectedRes := drv.rowsAffectedRes }

/-- sql.DB.Query / QueryContext. -/
def SqlDB.queryDB (d : SqlDB) (drv : Driver) (q : String) : Except Err Rows :=
  if d.closed then .error .dbClosed
  else
    match drv.queryErr q with
    | some e => .error e
    | none => .ok { query := q }

/-- sql.DB.QueryRow / QueryRowContext: never returns an error directly; a
failure (including ErrDBClosed) is stored inside the returned Row. -/
def SqlDB.queryRowDB (d : SqlDB) (drv : Driver) (q : String) : Row :=
  { err := if d.closed then some .dbClosed else drv.queryErr q, query := q }

/-- sql.DB.Begin / BeginTx. -/
def SqlDB.beginDB (d : SqlDB) (drv : Driver) : Except Err Tx :=
  if d.closed then .error .dbClosed
  else
    match drv.beginErr with
    | some e => .error e
    | none => .ok {}

/-- sql.DB.Close: database/sql makes DB.Close idempotent — a second Close
returns nil; the first Close returns the accumulated connection-close
error (the oracle's) and marks the handle closed. -/
def SqlDB.closeDB (d : SqlDB) (drv : Driver) : Option Err × SqlDB :=
  if d.closed then (none, d) else (drv.closeErr, { d with closed := true })

/-- Outcome of calling a Go method that may dereference a nil pointer:
`nilDeref` models a Go runtime panic (nil *sql.DB receiver field); `ret`
is a normal return. -/
inductive GoVal (α : Type)
  | nilDeref
  | ret (a : α)
  deriving DecidableEq, Repr

/-- MySqlDB structure (src/database/mysql.go lines 12-14): holds a
possibly-nil *sql.DB. -/
structure MySqlDB where
  db : Option SqlDB

/-- Config MySQL configure (src/database/mysql.go lines 17-24). -/
structure Config where
  Username : String
  Password : String
  Host : String
  Port : Int
  Database : String
  Charset : String
  deriving DecidableEq, Repr

/-- DSN string built by NewMySqlDB (src/database/mysql.go lines 29-41):
fmt.Sprintf with the charset defaulted to utf8mb4 when cfg.Charset is
empty, parseTime=True and loc=Local fixed. -/
def mysqlDSN (cfg : Config) : String :=
  let charset := if cfg.Charset = "" then "utf8mb4" else cfg.Charset
  cfg.Username ++ ":" ++ cfg.Password ++ "@tcp(" ++ cfg.Host ++ ":" ++
    toString cfg.Port ++ ")/" ++ cfg.Database ++ "?charset=" ++ charset ++
    "&parseTime=True&loc=Local"

/-- NewMySqlDB (src/database/mysql.go lines 27-56): open, set pool limits
25/10/1h, ping; errors are wrapped with the failing phase. The second
component exposes the final state of the underlying *sql.DB that was
opened (if any), so resource handling on error paths is observable: the
code returns early on a ping failure without closing the handle. -/
def NewMySqlDB (cfg : Config) (drv : Driver) : Except Err MySqlDB × Option SqlDB :=
  match sqlOpen drv "mysql" (mysqlDSN cfg) with
  | .error e => (.error (.wrap "error open database" e), none)
  | .ok db0 =>
    let db1 := ((db0.setMaxOpenConns 25).setMaxIdleConns 10).setConnMaxLifetime timeHourNs
    match db1.pingDB drv with
    | some e => (.error (.wrap "error verify connect" e), some db1)
    | none => (.ok { db := some db1 }, some db1)

/-- MySqlDB.Close (src/database/mysql.go lines 59-64): calls the
underlying Close only when the pointer is non-nil; the pointer itself is
never set to nil. The Bool reports whether the underlying sql.DB.Close
was invoked. -/
def MySqlDB.Close (m : MySqlDB) (drv : Driver) : Option Err × MySqlDB × Bool :=
  match m.db with
  | some d =>
    let r := d.closeDB drv
    (r.1, { db := some r.2 }, true)
  | none => (none, m, false)

/-- MySqlDB.Exec (src/database/mysql.go lines 73-85): returns
(rowsAffected, error); 0 with a phase-wrapped error on either failure.
Dereferences m.db without a nil check. -/
def MySqlDB.Exec (m : MySqlDB) (drv : Driver) (q : String) :
    GoVal (Int × Option Err) × MySqlDB :=
  match m.db with
  | none => (.nilDeref, m)
  | some d =>
    match d.execDB drv q with
    | .error e => (.ret (0, some (.wrap "error execute" e)), m)
    | .ok r =>
      match r.rowsAffected with
      | .error e => (.ret (0, some (.wrap "error fetch rows affected" e)), m)
      | .ok n => (.ret (n, none), m)

/-- MySqlDB.Query (src/database/mysql.go lines 88-95). -/
def MySqlDB.Query (m : MySqlDB) (drv : Driver) (q : String) :
    GoVal (Option Rows × Option Err) × MySqlDB :=
  match m.db with
  | none => (.nilDeref, m)
  | some d =>
    match d.queryDB drv q with
    | .error e => (.ret (none, some (.wrap "error query" e)), m)
    | .ok rows => (.ret (some rows, none), m)

/-- MySqlDB.QueryRow (src/database/mysql.go lines 98-101): passes the
driver's Row through unchanged. -/
def MySqlDB.QueryRow (m : MySqlDB) (drv : Driver) (q : String) :
    GoVal Row × MySqlDB :=
  match m.db with
  | none => (.nilDeref, m)
  | some d => (.ret (d.queryRowDB drv q), m)

/-- MySqlDB.BeginTransaction (src/database/mysql.go lines 104-111). -/
def MySqlDB.BeginTransaction (m : MySqlDB) (drv : Driver) :
    GoVal (Option Tx × Option Err) × MySqlDB :=
  match m.db with
  | none => (.nilDeref, m)
  | some d =>
    match d.beginDB drv with
    | .error e => (.ret (none, some (.wrap "error begin transaction" e)), m)
    | .ok tx => (.ret (some tx, none), m)

/-- SQLiteDB structure (src/unnamed/part_000 lines 14-18): a
possibly-nil *sql.DB, the path, and a mutex (the mutex is modelled
separately as an event-trace transition system below). -/
structure SQLiteDB where
  db : Option SqlDB
  path : String

/-- Construction events of NewSQLiteDB, in program order. -/
inductive SEvent
  | openDB (path : String)
  | setMaxOpen (n : Int)
  | setMaxIdle (n : Int)
  | setLifetime (ns : Int)
  | ping
  | execStmt (q : String)
  deriving DecidableEq, Repr

/-- NewSQLiteDB (src/unnamed/part_000 lines 21-43): open, pool limits
1/1/1h, ping, then PRAGMA foreign_keys = ON. The trace lists the driver
interactions actually performed, in order; the Option SqlDB exposes the
final state of the opened underlying handle (error paths return without
closing it). -/
def NewSQLiteDB (dbPath : String) (drv : Driver) :
    Except Err SQLiteDB × Option SqlDB × List SEvent :=
  match sqlOpen drv "sqlite" dbPath with
  | .error e => (.error (.wrap "failed to open database" e), none, [.openDB dbPath])
  | .ok db0 =>
    let db1 := ((db0.setMaxOpenConns 1).setMaxIdleConns 1).setConnMaxLifetime timeHourNs
    let ev0 : List SEvent := [.openDB dbPath, .setMaxOpen 1, .setMaxIdle 1, .setLifetime timeHourNs]
    match db1.pingDB drv with
    | some e => (.error (.wrap "database ping failed" e), some db1, ev0 ++ [.ping])
    | none =>
      match db1.execDB drv "PRAGMA foreign_keys = ON;" with
      | .error e =>
        (.error (.wrap "failed to enable foreign keys" e), some db1,
         ev0 ++ [.ping, .execStmt "PRAGMA foreign_keys = ON;"])
      | .ok _ =>
        (.ok { db := some db1, path := dbPath }, some db1,
         ev0 ++ [.ping, .execStmt "PRAGMA foreign_keys = ON;"])

/-- SQLiteDB.Close (src/unnamed/part_000 lines 46-57): under the mutex,
closes the underlying handle if present and sets it to nil. The Bool
reports whether the underlying sql.DB.Close was invoked. -/
def SQLiteDB.Close (s : SQLiteDB) (drv : Driver) : Option Err × SQLiteDB × Bool :=
  match s.db with
  | some d => ((d.closeDB drv).1, { s with db := none }, true)
  | none => (none, s, false)

/-- SQLiteDB.ExecContext (src/unnamed/part_000 lines 65-75): under the
mutex, errors.New("database not connected") when the handle is nil,
otherwise delegates. The Bool reports whether the underlying driver call
was attempted. -/
def SQLiteDB.ExecContext (s : SQLiteDB) (drv : Driver) (_ctx : Context) (q : String) :
    Except Err SqlResult × SQLiteDB × Bool :=
  match s.db with
  | none => (.error notConnectedErr, s, false)
  | some d => (d.execDB drv q, s, true)

/-- SQLiteDB.Exec (src/unnamed/part_000 lines 60-62): ExecContext with
context.Background(). -/
def SQLiteDB.Exec (s : SQLiteDB) (drv : Driver) (q : String) :
    Except Err SqlResult × SQLiteDB × Bool :=
  s.ExecContext drv .background q

/-- SQLiteDB.QueryContext (src/unnamed/part_000 lines 83-93). -/
def SQLiteDB.QueryContext (s : SQLiteDB) (drv : Driver) (_ctx : Context) (q : String) :
    Except Err Rows × SQLiteDB × Bool :=
  match s.db with
  | none => (.error notConnectedErr, s, false)
  | some d => (d.queryDB drv q, s, true)

/-- SQLiteDB.Query (src/unnamed/part_000 lines 78-80). -/
def SQLiteDB.Query (s : SQLiteDB) (drv : Driver) (q : String) :
    Except Err Rows × SQLiteDB × Bool :=
  s.QueryContext drv .background q

/-- SQLiteDB.QueryRowContext (src/unnamed/part_000 lines 101-111):
returns nil (none) — not an error value — when the handle is nil. -/
def SQLiteDB.QueryRowContext (s : SQLiteDB) (drv : Driver) (_ctx : Context) (q : String) :
    Option Row × SQLiteDB × Bool :=
  match s.db with
  | none => (none, s, false)
  | some d => (some (d.queryRowDB drv q), s, true)

/-- SQLiteDB.QueryRow (src/unnamed/part_000 lines 96-98). -/
def SQLiteDB.QueryRow (s : SQLiteDB) (drv : Driver) (q : String) :
    Option Row × SQLiteDB × Bool :=
  s.QueryRowContext drv .background q

/-- SQLiteDB.BeginTxContext (src/unnamed/part_000 lines 119-129). -/
def SQLiteDB.BeginTxContext (s : SQLiteDB) (drv : Driver) (_ctx : Context)
    (_opts : Option TxOptions) : Except Err Tx × SQLiteDB × Bool :=
  match s.db with
  | none => (.error notConnectedErr, s, false)
  | some d => (d.beginDB drv, s, true)

/-- SQLiteDB.BeginTx (src/unnamed/part_000 lines 114-116): BeginTxContext
with context.Background() and nil options. -/
def SQLiteDB.BeginTx (s : SQLiteDB) (drv : Driver) :
    Except Err Tx × SQLiteDB × Bool :=
  s.BeginTxContext drv .background none

/-- Config log configure structure (src/logger/zap.go lines 25-33);
LogLevel is a string type. -/
structure LogConfig where
  Level : String
  Filename : String
  MaxSize : Int
  MaxBackups : Int
  MaxAge : Int
  Compress : Bool
  Console : Bool
  deriving DecidableEq, Repr

/-- mapLogLevel (src/logger/zap.go lines 131-148), with zapcore levels as
integers: Debug=-1, Info=0, Warn=1, Error=2, DPanic=3, Panic=4, Fatal=5,
InvalidLevel=6. Unknown strings fall to the default branch, info. -/
def mapLogLevel (level : String) : Int :=
  if level = "debug" then -1
  else if level = "info" then 0
  else if level = "warn" then 1
  else if level = "error" then 2
  else if level = "panic" then 4
  else if level = "fatal" then 5
  else 0

/-- Which sink a zapcore.Core writes to. -/
inductive SinkKind
  | file (filename : String)
  | console
  deriving DecidableEq, Repr

/-- A zapcore.Core as configured by Init: a sink plus the minimum severity
threshold it was created with. -/
structure Core where
  kind : SinkKind
  threshold : Int
  deriving DecidableEq, Repr

/-- zapcore level filtering: a record passes a core exactly when its level
is at or above the core's threshold. -/
def Core.enabled (c : Core) (lvl : Int) : Bool := decide (c.threshold ≤ lvl)

/-- Cores built by Init (src/logger/zap.go lines 40-80): the file core when
a filename is configured, then the console core when console output is
enabled, both filtered at the mapped level (with the InvalidLevel guard of
lines 43-45). -/
def initCores (cfg : LogConfig) : List Core :=
  let lvl0 := mapLogLevel cfg.Level
  let logLevel := if lvl0 = 6 then 0 else lvl0
  (if cfg.Filename ≠ "" then [{ kind := .file cfg.Filename, threshold := logLevel }] else []) ++
  (if cfg.Console then [{ kind := .console, threshold := logLevel }] else [])

/-- Outcome oracle for the logger's OS interaction: the os.MkdirAll result
for the log directory. -/
structure LogOracle where
  mkdirErr : Option Err

/-- Init (src/logger/zap.go lines 40-87) as a function of the previous
process-wide globalLogger: when a filename is configured and MkdirAll
fails, Init returns that error before touching globalLogger; on every
other path it installs the newly built cores as the global instance and
returns nil. -/
def Init (cfg : LogConfig) (o : LogOracle) (globalLogger : Option (List Core)) :
    Option Err × Option (List Core) :=
  if cfg.Filename ≠ "" then
    match o.mkdirErr with
    | some e => (some e, globalLogger)
    | none => (none, some (initCores cfg))
  else (none, some (initCores cfg))

/-!
Mutex discipline of the SQLite wrapper. Each method of SQLiteDB is
abstracted to its sequence of synchronization-relevant events, read off
the source: acquire the mutex (s.mu.Lock()), check s.db for nil, enter
and leave the underlying connection call, release the mutex (the deferred
s.mu.Unlock()). Two threads each running one such program under standard
mutex semantics never overlap their underlying-connection accesses.
-/

/-- Synchronization events of a SQLiteDB method body. -/
inductive MEvent
  | acquire
  | checkConn
  | connBegin
  | connEnd
  | release
  deriving DecidableEq, Repr

/-- SQLiteDB.ExecContext (src/unnamed/part_000 lines 65-75): Lock, defer
Unlock, nil check, then (when open) the driver call. -/
def execContextProg (isOpen : Bool) : List MEvent :=
  if isOpen then [.acquire, .checkConn, .connBegin, .connEnd, .release]
  else [.acquire, .checkConn, .release]

/-- SQLiteDB.QueryContext (src/unnamed/part_000 lines 83-93). -/
def queryContextProg (isOpen : Bool) : List MEvent :=
  if isOpen then [.acquire, .checkConn, .connBegin, .connEnd, .release]
  else [.acquire, .checkConn, .release]

/-- SQLiteDB.QueryRowContext (src/unnamed/part_000 lines 101-111). -/
def queryRowContextProg (isOpen : Bool) : List MEvent :=
  if isOpen then [.acquire, .checkConn, .connBegin, .connEnd, .release]
  else [.acquire, .checkConn, .release]

/-- SQLiteDB.BeginTxContext (src/unnamed/part_000 lines 119-129). -/
def beginTxContextProg (isOpen : Bool) : List MEvent :=
  if isOpen then [.acquire, .checkConn, .connBegin, .connEnd, .release]
  else [.acquire, .checkConn, .release]

/-- SQLiteDB.Close (src/unnamed/part_000 lines 46-57): Lock, defer Unlock,
nil check, then (when open) the underlying Close call. -/
def closeProg (isOpen : Bool) : List MEvent :=
  if isOpen then [.acquire, .checkConn, .connBegin, .connEnd, .release]
  else [.acquire, .checkConn, .release]

/-- Every mutex-guarded SQLiteDB operation, in both its open-handle and
closed-handle variants. -/
def sqliteOpPrograms : List (List MEvent) :=
  [execContextProg true, execContextProg false,
   queryContextProg true, queryContextProg false,
   queryRowContextProg true, queryRowContextProg false,
   beginTxContextProg true, beginTxContextProg false,
   closeProg true, closeProg false]

/-- Configuration of two threads running event programs over one mutex:
each thread's remaining program and the current mutex holder (false =
thread 1, true = thread 2). -/
structure LockConf where
  p1 : List MEvent
  p2 : List MEvent
  holder : Option Bool
  deriving DecidableEq, Repr

/-- One thread's step under mutex semantics: acquire blocks unless the
mutex is free; release (Go sync.Mutex.Unlock) requires the mutex to be
held (unlocking an unlocked mutex is a Go runtime fault, modelled as
stuck); other events are internal. Returns the new remaining program and
holder, or none when the thread cannot step. -/
def tstep (t : Bool) (p : List MEvent) (h : Option Bool) :
    Option (List MEvent × Option Bool) :=
  match p, h with
  | MEvent.acquire :: r, none => some (r, some t)
  | MEvent.acquire :: _, some _ => none
  | MEvent.release :: r, some _ => some (r, none)
  | MEvent.release :: _, none => none
  | MEvent.checkConn :: r, h => some (r, h)
  | MEvent.connBegin :: r, h => some (r, h)
  | MEvent.connEnd :: r, h => some (r, h)
  | [], _ => none

/-- All successor configurations: either thread takes one step. -/
def gsteps (c : LockConf) : List LockConf :=
  (match tstep false c.p1 c.holder with
   | some (p1, h) => [{ p1 := p1, p2 := c.p2, holder := h }]
   | none => []) ++
  (match tstep true c.p2 c.holder with
   | some (p2, h) => [{ p1 := c.p1, p2 := p2, holder := h }]
   | none => [])

/-- Interleaving step relation on two-thread configurations. -/
def LockStep (c c' : LockConf) : Prop := c' ∈ gsteps c

/-- Reachability under the interleaving semantics. -/
def ReachableFrom (c0 c : LockConf) : Prop := Relation.ReflTransGen LockStep c0 c

/-- All suffixes of the two program shapes occurring in sqliteOpPrograms. -/
def allSuffixList : List (List MEvent) :=
  [[.acquire, .checkConn, .connBegin, .connEnd, .release],
   [.checkConn, .connBegin, .connEnd, .release],
   [.connBegin, .connEnd, .release],
   [.connEnd, .release],
   [.release],
   [.acquire, .checkConn, .release],
   [.checkConn, .release],
   []]

/-- A remaining program is valid when it is a genuine suffix of one of the
operation programs. -/
def validSuffix (r : List MEvent) : Bool := decide (r ∈ allSuffixList)

/-- A thread whose remaining program is a proper, nonempty suffix (past
the initial acquire) holds the mutex. -/
def heldBy (r : List MEvent) : Bool :=
  match r with
  | [] => false
  | MEvent.acquire :: _ => false
  | _ => true

/-- A thread is inside the underlying-connection call exactly between its
connBegin and connEnd events. -/
def inConn (r : List MEvent) : Bool := decide (r = [MEvent.connEnd, MEvent.release])

/-- Inductive invariant: both remaining programs are genuine suffixes, and
a thread past its acquire is the current mutex holder. -/
def lockInv (c : LockConf) : Bool :=
  validSuffix c.p1 && validSuffix c.p2 &&
  (!heldBy c.p1 || c.holder == some false) &&
  (!heldBy c.p2 || c.holder == some true)

/-- Exhaustive check that lockInv is preserved by every step from every
invariant configuration. -/
def presCheck : Bool :=
  allSuffixList.all fun a => allSuffixList.all fun b =>
    [none, some false, some true].all fun h =>
      !lockInv { p1 := a, p2 := b, holder := h } ||
      (gsteps { p1 := a, p2 := b, holder := h }).all lockInv

/-- Exhaustive check that lockInv holds initially for every pair of
operation programs. -/
def initCheck : Bool :=
  sqliteOpPrograms.all fun a => sqliteOpPrograms.all fun b =>
    lockInv { p1 := a, p2 := b, holder := none }

/-!
Concrete fixtures used by counterexamples and witnesses.
-/

/-- Driver oracle on which every interaction succeeds (3 rows affected). -/
def drvOK : Driver :=
  { openErr := none, pingErr := none, closeErr := none,
    execErr := fun _ => none, queryErr := fun _ => none,
    beginErr := none, rowsAffectedRes := .ok 3 }

/-- Driver oracle whose liveness probe fails (unreachable host or path). -/
def drvPingFail : Driver := { drvOK with pingErr := some (.driverErr 7) }

/-- A concrete MySQL configuration with empty charset. -/
def cfg0 : Config :=
  { Username := "u", Password := "pw", Host := "h", Port := 3306,
    Database := "db", Charset := "" }

/-- The underlying handle NewMySqlDB cfg0 drvOK produces. -/
def sqlDBmy0 : SqlDB :=
  { driverName := "mysql",
    dsn := "u:pw@tcp(h:3306)/db?charset=utf8mb4&parseTime=True&loc=Local",
    maxOpenConns := 25, maxIdleConns := 10, connMaxLifetimeNs := timeHourNs,
    closed := false }

/-- The underlying handle NewSQLiteDB builds on its success path for a
given path. -/
def sqliteOpened (path : String) : SqlDB :=
  { driverName := "sqlite", dsn := path, maxOpenConns := 1,
    maxIdleConns := 1, connMaxLifetimeNs := timeHourNs, closed := false }

/-- The underlying handle NewSQLiteDB "w.db" drvOK produces. -/
def sqliteDB0 : SqlDB := sqliteOpened "w.db"

/-- A freshly opened, not yet closed underlying MySQL handle. -/
def sqlDBFresh : SqlDB :=
  { driverName := "mysql", dsn := "x", maxOpenConns := 0, maxIdleConns := 0,
    connMaxLifetimeNs := 0, closed := false }

/-- A log configuration with an unknown level string and both sinks. -/
def cfg7 : LogConfig :=
  { Level := "verbose", Filename := "app.log", MaxSize := 100,
    MaxBackups := 3, MaxAge := 7, Compress := false, Console := true }

/-- A log configuration with a file sink, used to exercise the MkdirAll
failure path of Init. -/
def cfgF : LogConfig := { cfg7 with Level := "info", Filename := "l.log" }

/-- An underlying MySQL handle on which Close has already been called. -/
def sqlDBClosed : SqlDB := { sqlDBFresh with closed := true }

/-- A logger oracle whose log-directory creation fails. -/
def oMkdirFail : LogOracle := { mkdirErr := some (.errorsNew "mkdir failed") }

/-!
Helper lemmas for the mutex transition system.
-/

theorem presCheck_true : presCheck = true := by decide

theorem initCheck_true : initCheck = true := by decide

theorem mem_holderChoices (h : Option Bool) :
    h ∈ ([none, some false, some true] : List (Option Bool)) := by
  cases h with
  | none => simp
  | some b => cases b <;> simp

theorem lockInv_parts {c : LockConf} (h : lockInv c = true) :
    validSuffix c.p1 = true ∧ validSuffix c.p2 = true ∧
    (!heldBy c.p1 || c.holder == some false) = true ∧
    (!heldBy c.p2 || c.holder == some true) = true := by
  simp only [lockInv, Bool.and_eq_true] at h
  exact ⟨h.1.1.1, h.1.1.2, h.1.2, h.2⟩

theorem lockInv_step {c c' : LockConf} (h : lockInv c = true)
    (hs : c' ∈ gsteps c) : lockInv c' = true := by
  obtain ⟨hv1, hv2, _, _⟩ := lockInv_parts h
  have hm1 : c.p1 ∈ allSuffixList := of_decide_eq_true hv1
  have hm2 : c.p2 ∈ allSuffixList := of_decide_eq_true hv2
  have h1 := List.all_eq_true.mp presCheck_true c.p1 hm1
  have h2 := List.all_eq_true.mp h1 c.p2 hm2
  have h3 := List.all_eq_true.mp h2 c.holder (mem_holderChoices c.holder)
  have hc : ({ p1 := c.p1, p2 := c.p2, holder := c.holder } : LockConf) = c := rfl
  rw [hc] at h3
  rw [h, Bool.not_true, Bool.false_or] at h3
  exact List.all_eq_true.mp h3 c' hs

theorem lockInv_reachable {c0 c : LockConf} (h0 : lockInv c0 = true)
    (h : ReachableFrom c0 c) : lockInv c = true := by
  induction h with
  | refl => exact h0
  | tail _ hstep ih => exact lockInv_step ih hstep

theorem lockInv_excl {c : LockConf} (h : lockInv c = true) :
    ¬(inConn c.p1 = true ∧ inConn c.p2 = true) := by
  rintro ⟨h1, h2⟩
  have e1 : c.p1 = [MEvent.connEnd, MEvent.release] := of_decide_eq_true h1
  have e2 : c.p2 = [MEvent.connEnd, MEvent.release] := of_decide_eq_true h2
  obtain ⟨_, _, hh1, hh2⟩ := lockInv_parts h
  rw [e1] at hh1
  rw [e2] at hh2
  simp only [heldBy, Bool.not_true, Bool.false_or] at hh1 hh2
  have hf : c.holder = some false := eq_of_beq hh1
  have ht : c.holder = some true := eq_of_beq hh2
  rw [hf] at ht
  exact Bool.false_ne_true (Option.some.inj ht)

/-!
Claim theorems.
-/

/-- C1, counterexample. The claim states that after Close every operation,
QueryRow/QueryRowContext included, fails with a NotConnectedError. On the
closed handle, QueryRowContext returns a nil row (none) — a value carrying
no error at all — so no Row with the not-connected error is produced
(src/unnamed/part_000 line 107 returns nil instead of an error). -/
theorem C1_counterexample :
    (SQLiteDB.QueryRowContext { db := none, path := "p" } drvOK .background "SELECT 1").1 = none ∧
    ¬ ∃ r : Row,
      (SQLiteDB.QueryRowContext { db := none, path := "p" } drvOK .background "SELECT 1").1 = some r ∧
      r.err = some notConnectedErr := by
  refine ⟨rfl, ?_⟩
  rintro ⟨r, hr, -⟩
  exact Option.noConfusion hr

/-- C1, amended: for the serialized (SQLite) handle after Close (the
handle's db field is nil, and Close always leaves it nil), Exec/ExecContext,
Query/QueryContext and BeginTx/BeginTxContext fail immediately with the
not-connected error (errors.New("database not connected")) without
attempting the driver call, while QueryRow/QueryRowContext return a nil
row (no error value) without attempting the driver call; no operation
panics (every operation is a total function of the closed state whose
result carries no panic case). -/
theorem C1_post_close_operations (p q : String) (drv : Driver) (ctx : Context)
    (opts : Option TxOptions) (s : SQLiteDB) :
    (SQLiteDB.Close s drv).2.1 = { db := none, path := s.path } ∧
    SQLiteDB.ExecContext { db := none, path := p } drv ctx q =
      (.error notConnectedErr, { db := none, path := p }, false) ∧
    SQLiteDB.Exec { db := none, path := p } drv q =
      (.error notConnectedErr, { db := none, path := p }, false) ∧
    SQLiteDB.QueryContext { db := none, path := p } drv ctx q =
      (.error notConnectedErr, { db := none, path := p }, false) ∧
    SQLiteDB.Query { db := none, path := p } drv q =
      (.error notConnectedErr, { db := none, path := p }, false) ∧
    SQLiteDB.BeginTxContext { db := none, path := p } drv ctx opts =
      (.error notConnectedErr, { db := none, path := p }, false) ∧
    SQLiteDB.BeginTx { db := none, path := p } drv =
      (.error notConnectedErr, { db := none, path := p }, false) ∧
    SQLiteDB.QueryRowContext { db := none, path := p } drv ctx q =
      (none, { db := none, path := p }, false) ∧
    SQLiteDB.QueryRow { db := none, path := p } drv q =
      (none, { db := none, path := p }, false) := by
  refine ⟨?_, rfl, rfl, rfl, rfl, rfl, rfl, rfl, rfl⟩
  rcases s with ⟨db, path⟩
  cases db <;> rfl

/-- C2, counterexample. The claim explains idempotence by "the second call
is a no-op because the underlying connection is already null". For the
MySQL handle this is false: Close (src/database/mysql.go lines 59-64)
never sets m.db to nil, so after a first Close the underlying connection
is still present, and a second Close invokes the underlying sql.DB.Close
again rather than being a no-op. -/
theorem C2_counterexample :
    ((MySqlDB.Close (MySqlDB.mk (some sqlDBFresh)) drvOK).2.1).db ≠ none ∧
    (MySqlDB.Close (MySqlDB.Close (MySqlDB.mk (some sqlDBFresh)) drvOK).2.1 drvOK).2.2 = true := by
  exact ⟨fun h => Option.noConfusion h, rfl⟩

/-- C2, amended: on both handles a second Close after a first Close
returns no error. For the SQLite handle the second call is a no-op
because the connection field is already nil; for the MySQL handle the
connection field is not nilled, the second call re-invokes the underlying
sql.DB.Close, and that call returns nil because database/sql makes
DB.Close itself idempotent. -/
theorem C2_close_idempotent (s : SQLiteDB) (m : MySqlDB) (drv drv2 : Driver) :
    (SQLiteDB.Close (SQLiteDB.Close s drv).2.1 drv2).1 = none ∧
    (SQLiteDB.Close (SQLiteDB.Close s drv).2.1 drv2).2.2 = false ∧
    (MySqlDB.Close (MySqlDB.Close m drv).2.1 drv2).1 = none := by
  refine ⟨?_, ?_, ?_⟩
  · rcases s with ⟨db, path⟩; cases db <;> rfl
  · rcases s with ⟨db, path⟩; cases db <;> rfl
  · rcases m with ⟨db⟩
    cases db with
    | none => rfl
    | some d =>
      simp only [MySqlDB.Close, SqlDB.closeDB]
      cases hd : d.closed <;> simp [hd]

/-- C3, counterexample. The claim states that construction against an
unreachable host/path returns a ConnectionError and leaves no resources
allocated. The error is returned, but the partially opened underlying
handle is dropped without being closed: at a concrete path whose liveness
probe fails, NewSQLiteDB returns the wrapped ping error while the opened
sql.DB is left with closed = false (src/unnamed/part_000 lines 32-34
return without calling db.Close()). -/
theorem C3_counterexample :
    (NewSQLiteDB "bad.db" drvPingFail).1 =
      .error (.wrap "database ping failed" (.driverErr 7)) ∧
    (NewSQLiteDB "bad.db" drvPingFail).2.1.map SqlDB.closed = some false := by
  exact ⟨rfl, rfl⟩

/-- C3, amended: for every configuration whose host (MySQL) or path
(SQLite) is unreachable (the open succeeds lazily but the liveness probe
fails), construction returns a ConnectionError (the wrapped ping error),
but it does not release the partially opened underlying handle: the
handle is dropped without Close and remains open (closed = false). -/
theorem C3_ping_failure_leaks_handle (cfg : Config) (path : String)
    (drv : Driver) (e : Err) (hopen : drv.openErr = none)
    (hping : drv.pingErr = some e) :
    (NewMySqlDB cfg drv).1 = .error (.wrap "error verify connect" e) ∧
    (NewMySqlDB cfg drv).2.map SqlDB.closed = some false ∧
    (NewSQLiteDB path drv).1 = .error (.wrap "database ping failed" e) ∧
    (NewSQLiteDB path drv).2.1.map SqlDB.closed = some false := by
  simp [NewMySqlDB, NewSQLiteDB, sqlOpen, SqlDB.pingDB, SqlDB.setMaxOpenConns,
        SqlDB.setMaxIdleConns, SqlDB.setConnMaxLifetime, hopen, hping]

/-- C3, witness: the amended statement at a concrete configuration and
path whose ping fails. -/
theorem C3_witness :
    (NewMySqlDB cfg0 drvPingFail).1 = .error (.wrap "error verify connect" (.driverErr 7)) ∧
    (NewMySqlDB cfg0 drvPingFail).2.map SqlDB.closed = some false ∧
    (NewSQLiteDB "leak.db" drvPingFail).1 = .error (.wrap "database ping failed" (.driverErr 7)) ∧
    (NewSQLiteDB "leak.db" drvPingFail).2.1.map SqlDB.closed = some false :=
  C3_ping_failure_leaks_handle cfg0 "leak.db" drvPingFail (.driverErr 7) rfl rfl

/-- C4: for every Config, when NewMySqlDB succeeds its handle's DSN was
built from username, password, host, port, database and charset with
parseTime=True and loc=Local, the charset being utf8mb4 exactly when
Config.Charset is the empty string (the conditional in the DSN below);
the pool limits are max open 25, max idle 10, max lifetime one hour; and
success implies the liveness probe (Ping) succeeded. -/
theorem C4_mysql_construction (cfg : Config) (drv : Driver) (m : MySqlDB)
    (h : (NewMySqlDB cfg drv).1 = .ok m) :
    m.db.map SqlDB.dsn =
      some (cfg.Username ++ ":" ++ cfg.Password ++ "@tcp(" ++ cfg.Host ++ ":" ++
        toString cfg.Port ++ ")/" ++ cfg.Database ++ "?charset=" ++
        (if cfg.Charset = "" then "utf8mb4" else cfg.Charset) ++
        "&parseTime=True&loc=Local") ∧
    m.db.map SqlDB.maxOpenConns = some 25 ∧
    m.db.map SqlDB.maxIdleConns = some 10 ∧
    m.db.map SqlDB.connMaxLifetimeNs = some timeHourNs ∧
    drv.openErr = none ∧ drv.pingErr = none := by
  unfold NewMySqlDB sqlOpen at h
  cases ho : drv.openErr with
  | some e => rw [ho] at h; exact absurd h (by simp)
  | none =>
    rw [ho] at h
    simp only [SqlDB.setMaxOpenConns, SqlDB.setMaxIdleConns,
               SqlDB.setConnMaxLifetime, SqlDB.pingDB] at h
    cases hp : drv.pingErr with
    | some e => rw [hp] at h; exact absurd h (by simp)
    | none =>
      rw [hp] at h
      simp only [Bool.false_eq_true, if_false] at h
      cases hm : m.db with
      | none => rw [show m = { db := m.db } from rfl, hm] at h; exact absurd h (by simp)
      | some d =>
        have hmd : m = { db := some d } := by
          rw [show m = { db := m.db } from rfl, hm]
        rw [hmd] at h
        have hd := (Except.ok.inj h)
        have hd' : d = { driverName := "mysql", dsn := mysqlDSN cfg,
                         maxOpenConns := 25, maxIdleConns := 10,
                         connMaxLifetimeNs := timeHourNs, closed := false } := by
          have := congrArg MySqlDB.db hd
          simpa using this.symm
        subst hd'
        simp [hm, mysqlDSN]

/-- C4, witness: the construction theorem at a concrete configuration
with empty charset and an all-success driver oracle. -/
theorem C4_witness :
    (MySqlDB.mk (some sqlDBmy0)).db.map SqlDB.dsn =
      some (cfg0.Username ++ ":" ++ cfg0.Password ++ "@tcp(" ++ cfg0.Host ++ ":" ++
        toString cfg0.Port ++ ")/" ++ cfg0.Database ++ "?charset=" ++
        (if cfg0.Charset = "" then "utf8mb4" else cfg0.Charset) ++
        "&parseTime=True&loc=Local") ∧
    (MySqlDB.mk (some sqlDBmy0)).db.map SqlDB.maxOpenConns = some 25 ∧
    (MySqlDB.mk (some sqlDBmy0)).db.map SqlDB.maxIdleConns = some 10 ∧
    (MySqlDB.mk (some sqlDBmy0)).db.map SqlDB.connMaxLifetimeNs = some timeHourNs ∧
    drvOK.openErr = none ∧ drvOK.pingErr = none :=
  C4_mysql_construction cfg0 drvOK (MySqlDB.mk (some sqlDBmy0)) rfl

/-- C5: for every path, when NewSQLiteDB returns a handle all three steps
succeeded (open, ping, and the foreign-key setup statement), the handle's
pool limits are exactly one open and one idle connection, and the trace
of driver interactions shows the steps in source order: open, pool
limits, ping, then PRAGMA foreign_keys = ON. -/
theorem C5_sqlite_construction (path : String) (drv : Driver) (s : SQLiteDB)
    (h : (NewSQLiteDB path drv).1 = .ok s) :
    drv.openErr = none ∧ drv.pingErr = none ∧
    drv.execErr "PRAGMA foreign_keys = ON;" = none ∧
    s.db.map SqlDB.maxOpenConns = some 1 ∧
    s.db.map SqlDB.maxIdleConns = some 1 ∧
    (NewSQLiteDB path drv).2.2 =
      [.openDB path, .setMaxOpen 1, .setMaxIdle 1, .setLifetime timeHourNs,
       .ping, .execStmt "PRAGMA foreign_keys = ON;"] := by
  cases ho : drv.openErr with
  | some e => simp [NewSQLiteDB, sqlOpen, ho] at h
  | none =>
    cases hp : drv.pingErr with
    | some e =>
      simp [NewSQLiteDB, sqlOpen, SqlDB.pingDB, SqlDB.setMaxOpenConns,
            SqlDB.setMaxIdleConns, SqlDB.setConnMaxLifetime, ho, hp] at h
    | none =>
      cases hx : drv.execErr "PRAGMA foreign_keys = ON;" with
      | some e =>
        simp [NewSQLiteDB, sqlOpen, SqlDB.pingDB, SqlDB.execDB,
              SqlDB.setMaxOpenConns, SqlDB.setMaxIdleConns,
              SqlDB.setConnMaxLifetime, ho, hp, hx] at h
      | none =>
        have hs : s = { db := some (sqliteOpened path), path := path } := by
          simp [NewSQLiteDB, sqlOpen, SqlDB.pingDB, SqlDB.execDB,
                SqlDB.setMaxOpenConns, SqlDB.setMaxIdleConns,
                SqlDB.setConnMaxLifetime, sqliteOpened, ho, hp, hx] at h
          exact h.symm
        subst hs
        refine ⟨rfl, rfl, rfl, rfl, rfl, ?_⟩
        simp [NewSQLiteDB, sqlOpen, SqlDB.pingDB, SqlDB.execDB,
              SqlDB.setMaxOpenConns, SqlDB.setMaxIdleConns,
              SqlDB.setConnMaxLifetime, ho, hp, hx]

/-- C5, witness: the construction theorem at a concrete path with an
all-success driver oracle. -/
theorem C5_witness :
    drvOK.openErr = none ∧ drvOK.pingErr = none ∧
    drvOK.execErr "PRAGMA foreign_keys = ON;" = none ∧
    (SQLiteDB.mk (some sqliteDB0) "w.db").db.map SqlDB.maxOpenConns = some 1 ∧
    (SQLiteDB.mk (some sqliteDB0) "w.db").db.map SqlDB.maxIdleConns = some 1 ∧
    (NewSQLiteDB "w.db" drvOK).2.2 =
      [.openDB "w.db", .setMaxOpen 1, .setMaxIdle 1, .setLifetime timeHourNs,
       .ping, .execStmt "PRAGMA foreign_keys = ON;"] :=
  C5_sqlite_construction "w.db" drvOK (SQLiteDB.mk (some sqliteDB0) "w.db") rfl

/-- C6: for every statement on an open handle, MySqlDB.Exec returns the
driver-reported affected-row count on success; on an execute failure it
returns 0 with the error wrapped as "error execute", and on an
affected-row retrieval failure it returns 0 with the error wrapped as
"error fetch rows affected". -/
theorem C6_exec_phases (d : SqlDB) (drv : Driver) (q : String)
    (hOpen : d.closed = false) :
    (drv.execErr q = none → ∀ n : Int, drv.rowsAffectedRes = .ok n →
      (MySqlDB.Exec (MySqlDB.mk (some d)) drv q).1 = .ret (n, none)) ∧
    (∀ e : Err, drv.execErr q = some e →
      (MySqlDB.Exec (MySqlDB.mk (some d)) drv q).1 =
        .ret (0, some (.wrap "error execute" e))) ∧
    (∀ e : Err, drv.execErr q = none → drv.rowsAffectedRes = .error e →
      (MySqlDB.Exec (MySqlDB.mk (some d)) drv q).1 =
        .ret (0, some (.wrap "error fetch rows affected" e))) := by
  refine ⟨?_, ?_, ?_⟩
  · intro hx n hr
    simp [MySqlDB.Exec, SqlDB.execDB, SqlResult.rowsAffected, hOpen, hx, hr]
  · intro e hx
    simp [MySqlDB.Exec, SqlDB.execDB, hOpen, hx]
  · intro e hx hr
    simp [MySqlDB.Exec, SqlDB.execDB, SqlResult.rowsAffected, hOpen, hx, hr]

/-- C6, witness: a successful execute on a concrete open handle reports
the oracle's 3 affected rows. -/
theorem C6_witness :
    (MySqlDB.Exec (MySqlDB.mk (some sqlDBmy0)) drvOK "UPDATE t SET a = 1").1 =
      .ret (3, none) :=
  (C6_exec_phases sqlDBmy0 drvOK "UPDATE t SET a = 1" rfl).1 rfl 3 rfl

/-- C7: for every log Config whose Level string is not one of
debug/info/warn/error/panic/fatal, every core Init builds (file sink and
console sink alike) carries the info threshold 0, so a record passes the
filter exactly when its level is at info (0) or above. -/
theorem C7_unknown_level_defaults_info (cfg : LogConfig)
    (h : cfg.Level ∉ ["debug", "info", "warn", "error", "panic", "fatal"])
    (core : Core) (hc : core ∈ initCores cfg) (lvl : Int) :
    core.threshold = 0 ∧ (core.enabled lvl = true ↔ 0 ≤ lvl) := by
  simp only [List.mem_cons, List.not_mem_nil, or_false, not_or] at h
  obtain ⟨h1, h2, h3, h4, h5, h6⟩ := h
  have hmap : mapLogLevel cfg.Level = 0 := by
    simp [mapLogLevel, h1, h2, h3, h4, h5, h6]
  have hth : core.threshold = 0 := by
    simp only [initCores, hmap] at hc
    norm_num at hc
    rcases hc with ⟨-, h'⟩ | ⟨-, h'⟩ <;> rw [h']
  refine ⟨hth, ?_⟩
  simp [Core.enabled, hth]

/-- C7, witness: with the unknown level string "verbose" and both sinks
configured, the file core built by Init carries threshold 0 and admits a
record at level 0. -/
theorem C7_witness :
    (Core.mk (SinkKind.file "app.log") 0).threshold = 0 ∧
    ((Core.mk (SinkKind.file "app.log") 0).enabled 0 = true ↔ (0:Int) ≤ 0) :=
  C7_unknown_level_defaults_info cfg7 (by decide)
    (Core.mk (SinkKind.file "app.log") 0) (by decide) 0

/-- C8: closing is irreversible on both handles. For the SQLite handle,
Close always leaves the connection field nil, and on such a state Exec,
Query, QueryRow and BeginTx all fail with the not-connected condition
(the not-connected error, or the nil row for QueryRow) and leave the
field nil — nothing reopens. For the MySQL handle, Close leaves the
underlying sql.DB in the closed state, and on such a state Exec, Query,
QueryRow and BeginTransaction all fail with database/sql's
database-closed error (wrapped with the operation's phase; carried inside
the Row for QueryRow) and return the handle unchanged — nothing
reopens. -/
theorem C8_close_irreversible (s : SQLiteDB) (d : SqlDB) (drv drv2 : Driver)
    (q p : String) (ctx : Context) (opts : Option TxOptions) :
    ((SQLiteDB.Close s drv).2.1.db = none) ∧
    ((SQLiteDB.Exec { db := none, path := p } drv2 q).1 = .error notConnectedErr ∧
     (SQLiteDB.Exec { db := none, path := p } drv2 q).2.1.db = none) ∧
    ((SQLiteDB.QueryContext { db := none, path := p } drv2 ctx q).1 = .error notConnectedErr ∧
     (SQLiteDB.QueryContext { db := none, path := p } drv2 ctx q).2.1.db = none) ∧
    ((SQLiteDB.QueryRowContext { db := none, path := p } drv2 ctx q).1 = none ∧
     (SQLiteDB.QueryRowContext { db := none, path := p } drv2 ctx q).2.1.db = none) ∧
    ((SQLiteDB.BeginTxContext { db := none, path := p } drv2 ctx opts).1 = .error notConnectedErr ∧
     (SQLiteDB.BeginTxContext { db := none, path := p } drv2 ctx opts).2.1.db = none) ∧
    ((MySqlDB.Close (MySqlDB.mk (some d)) drv).2.1.db.map SqlDB.closed = some true) ∧
    (∀ d2 : SqlDB, d2.closed = true →
      (MySqlDB.Exec (MySqlDB.mk (some d2)) drv2 q).1 =
        .ret (0, some (.wrap "error execute" .dbClosed)) ∧
      (MySqlDB.Exec (MySqlDB.mk (some d2)) drv2 q).2 = MySqlDB.mk (some d2) ∧
      (MySqlDB.Query (MySqlDB.mk (some d2)) drv2 q).1 =
        .ret (none, some (.wrap "error query" .dbClosed)) ∧
      (MySqlDB.Query (MySqlDB.mk (some d2)) drv2 q).2 = MySqlDB.mk (some d2) ∧
      (MySqlDB.QueryRow (MySqlDB.mk (some d2)) drv2 q).1 =
        .ret { err := some .dbClosed, query := q } ∧
      (MySqlDB.QueryRow (MySqlDB.mk (some d2)) drv2 q).2 = MySqlDB.mk (some d2) ∧
      (MySqlDB.BeginTransaction (MySqlDB.mk (some d2)) drv2).1 =
        .ret (none, some (.wrap "error begin transaction" .dbClosed)) ∧
      (MySqlDB.BeginTransaction (MySqlDB.mk (some d2)) drv2).2 = MySqlDB.mk (some d2)) := by
  refine ⟨?_, ⟨rfl, rfl⟩, ⟨rfl, rfl⟩, ⟨rfl, rfl⟩, ⟨rfl, rfl⟩, ?_, ?_⟩
  · rcases s with ⟨db, path⟩; cases db <;> rfl
  · cases hd : d.closed <;> simp [MySqlDB.Close, SqlDB.closeDB, hd]
  · intro d2 h2
    refine ⟨?_, ?_, ?_, ?_, ?_, ?_, ?_, ?_⟩ <;>
      simp [MySqlDB.Exec, MySqlDB.Query, MySqlDB.QueryRow,
            MySqlDB.BeginTransaction, SqlDB.execDB, SqlDB.queryDB,
            SqlDB.queryRowDB, SqlDB.beginDB, h2]

/-- C8, witness: on a concrete already-closed MySQL handle, Exec fails
with the wrapped database-closed error. -/
theorem C8_witness :
    (MySqlDB.Exec (MySqlDB.mk (some sqlDBClosed)) drvOK "DELETE FROM t").1 =
      .ret (0, some (.wrap "error execute" .dbClosed)) :=
  ((C8_close_irreversible { db := none, path := "p" } sqlDBFresh drvOK drvOK
      "DELETE FROM t" "p" .background none).2.2.2.2.2.2 sqlDBClosed rfl).1

/-- C9: every mutex-guarded SQLiteDB operation program (each operation in
both its open-handle and closed-handle variants) acquires the exclusive
lock as its first event and releases it as its last event on every exit
path, with exactly one acquire and one release; and for two concurrent
callers each running any of these operation programs, no reachable
interleaving under mutex semantics has both threads inside the
underlying-connection call at the same time. -/
theorem C9_serialized_mutual_exclusion (p q : List MEvent)
    (hp : p ∈ sqliteOpPrograms) (hq : q ∈ sqliteOpPrograms)
    (c : LockConf) (h : ReachableFrom { p1 := p, p2 := q, holder := none } c) :
    (∀ r ∈ sqliteOpPrograms,
      r.head? = some MEvent.acquire ∧ r.getLast? = some MEvent.release ∧
      r.count MEvent.acquire = 1 ∧ r.count MEvent.release = 1) ∧
    ¬(inConn c.p1 = true ∧ inConn c.p2 = true) := by
  constructor
  · decide
  · have h0 : lockInv { p1 := p, p2 := q, holder := none } = true := by
      have h1 := List.all_eq_true.mp initCheck_true p hp
      exact List.all_eq_true.mp h1 q hq
    exact lockInv_excl (lockInv_reachable h0 h)

/-- C9, witness: two threads both about to run the open-handle
ExecContext program, at the initial configuration, are not both inside
the underlying-connection call. -/
theorem C9_witness :
    ¬(inConn (execContextProg true) = true ∧ inConn (execContextProg true) = true) :=
  (C9_serialized_mutual_exclusion (execContextProg true) (execContextProg true)
    (by decide) (by decide)
    { p1 := execContextProg true, p2 := execContextProg true, holder := none }
    Relation.ReflTransGen.refl).2

/-- C10: Init is atomic with respect to the process-wide logger instance:
when Init returns an error, a filename was configured, the error is
exactly the log-directory-creation (MkdirAll) failure, and the previous
global instance is left unchanged; when Init returns no error, the global
instance is replaced with the newly built cores. -/
theorem C10_init_atomic (cfg : LogConfig) (o : LogOracle)
    (g : Option (List Core)) :
    ((Init cfg o g).1 ≠ none →
      (Init cfg o g).2 = g ∧ cfg.Filename ≠ "" ∧ (Init cfg o g).1 = o.mkdirErr) ∧
    ((Init cfg o g).1 = none → (Init cfg o g).2 = some (initCores cfg)) := by
  by_cases hf : cfg.Filename = ""
  · simp [Init, hf]
  · cases hm : o.mkdirErr with
    | none => simp [Init, hf, hm]
    | some e => simp [Init, hf, hm]

/-- C10, witness: a concrete Init whose directory creation fails leaves
the previous global instance in place. -/
theorem C10_witness :
    (Init cfgF oMkdirFail (some [])).2 = some ([] : List Core) :=
  ((C10_init_atomic cfgF oMkdirFail (some [])).1 (by decide)).1

end EPDG
